import Mathlib

/-!
A shallow embedding of the batch-dispatch, request and retry core of the
node-apn provider client (`lib/provider.js`, `lib/multiclient.js`,
`lib/config.js`).

Modelling conventions:
* JavaScript objects whose keys may be absent are Lean structures with
  `Option` fields; a field is `none` exactly when the object lacks the key
  or holds the `null`/`undefined` the code initialises it with.  A present
  value may still be falsy: falsy JSON scalars (`""`, `0`, `false`,
  `null`) are represented by the empty string, so a JavaScript truthiness
  test on a field becomes `truthy` (present and non-empty), not
  `Option.isSome`.
* JSON object values are association lists of string pairs; the numeric
  HTTP status codes the runtime delivers are represented by their decimal
  string (`"200"`, `"403"`, ...), uniformly on both sides of every
  comparison, so `status === 200` becomes equality with `some "200"`.
* `VError` objects are represented by their message string.
* Asynchronous requests are oracles: a function from (session kind,
  authority, attempt index) to the settled result of one
  `Client.prototype.request` invocation.
* The notification payload builder (`notification.headers()`,
  `notification.compile()`, `addPushTypeToPayloadIfNeeded`,
  `removeNonChannelRelatedProperties`) is the external collaborator the
  spec scopes out; dispatch operations receive the built form directly.
-/

/-- A JavaScript argument that is either a single value or an array,
distinguished by the `Array.isArray` tests in `provider.js`. -/
inductive JsArg (α : Type) where
  | single (a : α)
  | array (l : List α)
  deriving Repr, DecidableEq

/-- The `if (!Array.isArray(x)) x = [x];` normalization used by `send`,
`manageChannels` and `broadcast` in `provider.js`. -/
def JsArg.normalize {α : Type} : JsArg α → List α
  | .single a => [a]
  | .array l => l

/-- The observable fields of a settled `client.write` / `request` value.
`labelName`/`labelValue` model the single key of `subDirectoryObject`
(`device` or `bundleId` mapped to the recipient), `errMsg` the message of
the `error` field's `VError`, `response` the parsed JSON body attached to
plain server rejections, `bodyFields` the parsed JSON body merged into a
2xx success.  Keys of a 2xx body that shadow the tracked keys
(`status`, `error`, `retryAfter` and the three echo headers) are folded
into the corresponding fields, exactly as the spread
`{...headerObject, ...body}` does. -/
structure Outcome where
  labelName : Option String := none
  labelValue : Option String := none
  status : Option String := none
  retryAfter : Option String := none
  errMsg : Option String := none
  response : Option (List (String × String)) := none
  uniqueId : Option String := none
  requestId : Option String := none
  channelId : Option String := none
  bodyFields : Option (List (String × String)) := none
  deriving Repr, DecidableEq

/-- A built notification `{headers: notification.headers(), body:
notification.compile()}` as assembled in `provider.js`. -/
structure BuiltNotification where
  headers : List (String × String) := []
  body : String := "placeholder"
  deriving Repr, DecidableEq

/-- First value bound to a key in an association-list JSON object. -/
def lookupKey (kvs : List (String × String)) (k : String) : Option String :=
  (kvs.find? (fun p => p.1 == k)).map (fun p => p.2)

/-- Occurrence of `needle` as a contiguous run of `hay`, at any position:
the semantics of JavaScript `String.prototype.includes`. -/
def charsIncl (hay needle : List Char) : Bool :=
  match hay with
  | [] => needle.isEmpty
  | c :: rest => needle.isPrefixOf (c :: rest) || charsIncl rest needle

/-- `hay.includes(needle)` on strings (`path.includes('/1/apps/')` in
`Client.prototype.write`). -/
def jsIncludes (hay needle : String) : Bool :=
  charsIncl hay.data needle.data

/-- JavaScript truthiness of a possibly-absent value: present and truthy.
Falsy scalars (`""`, `0`, `false`, `null`) are represented by the empty
string per the modelling conventions. -/
def truthy (v : Option String) : Bool :=
  match v with
  | none => false
  | some s => s != ""

/-- The truthiness test `value.status || value.error` used by all three
aggregation loops in `provider.js`.  Values the client itself constructs
are always truthy (statuses are non-empty strings, errors are `VError`
objects), but a 2xx body can supply a falsy `status` or `error` value. -/
def hasStatusOrError (o : Outcome) : Bool :=
  truthy o.status || truthy o.errMsg

/-! ### The request layer (`Client.prototype.request`) -/

/-- The accumulated `responseData` of one request, at the granularity the
`end` handler distinguishes: empty, non-empty and parsed by `JSON.parse`
into an object, or non-empty with `JSON.parse` throwing. -/
inductive RespData where
  | empty
  | obj (kvs : List (String × String))
  | malformed
  deriving Repr, DecidableEq

/-- The per-stream state captured by the `response`/`data` event handlers
at the moment the `end` event fires: the `:status` value, `Retry-After`,
the three echo headers, and the accumulated body. -/
structure StreamEnd where
  status : Option String := none
  retryAfter : Option String := none
  uniqueId : Option String := none
  requestId : Option String := none
  channelId : Option String := none
  data : RespData := .empty
  deriving Repr, DecidableEq

/-- Which terminal event settles the request promise first: the `end`
handler, the timeout, `aborted`, a transport `error` (with the cause's
message), or a stream-level `frameError` (with its formatted message). -/
inductive RequestBehavior where
  | ended (se : StreamEnd)
  | timedOut
  | aborted
  | errored (msg : String)
  | frameErrored (msg : String)
  deriving Repr, DecidableEq

/-- The resolve value `{...headerObject, ...body}` of a 2xx response:
echo headers from `createHeaderObject` overridden by the parsed JSON
body, with the tracked keys extracted into their fields. -/
def endSuccess (u r c : Option String) (body : List (String × String)) : Outcome :=
  { uniqueId := lookupKey body "apns-unique-id" <|> u,
    requestId := lookupKey body "apns-request-id" <|> r,
    channelId := lookupKey body "apns-channel-id" <|> c,
    status := lookupKey body "status",
    errMsg := lookupKey body "error",
    retryAfter := lookupKey body "retryAfter",
    bodyFields := some body }

/-- `status === 200 || status === 201 || status === 204`. -/
def twoxx (s : Option String) : Bool :=
  s == some "200" || s == some "201" || s == some "204"

/-- `[TIMEOUT_STATUS, ABORTED_STATUS, ERROR_STATUS].includes(status)`. -/
def pseudoStatus (s : Option String) : Bool :=
  s == some "(timeout)" || s == some "(aborted)" || s == some "(error)"

/-- The `end`-event handler of `Client.prototype.request`: classifies the
captured stream state into a resolution (success) or rejection (failure),
mirroring the branch structure of `multiclient.js`.  The
`token.regenerate` side effect of the 403 branch and the logging calls do
not affect the settled value and are not modelled. -/
def processEnd (se : StreamEnd) : Except Outcome Outcome :=
  if twoxx se.status then
    match se.data with
    | .empty => .ok (endSuccess se.uniqueId se.requestId se.channelId [])
    | .obj kvs => .ok (endSuccess se.uniqueId se.requestId se.channelId kvs)
    | .malformed => .error { errMsg := some "Unexpected error processing APNs response" }
  else if pseudoStatus se.status then
    .error { uniqueId := se.uniqueId, requestId := se.requestId, channelId := se.channelId,
             status := se.status, retryAfter := se.retryAfter,
             errMsg := some "Timeout, aborted, or other unknown error" }
  else
    match se.data with
    | .obj kvs =>
      if se.status == some "403" && lookupKey kvs "reason" == some "ExpiredProviderToken" then
        .error { uniqueId := se.uniqueId, requestId := se.requestId, channelId := se.channelId,
                 status := se.status, retryAfter := se.retryAfter,
                 errMsg := some "ExpiredProviderToken" }
      else if se.status == some "500" && lookupKey kvs "reason" == some "InternalServerError" then
        .error { uniqueId := se.uniqueId, requestId := se.requestId, channelId := se.channelId,
                 status := se.status, retryAfter := se.retryAfter,
                 errMsg := some "Error 500, stream ended unexpectedly" }
      else
        .error { uniqueId := se.uniqueId, requestId := se.requestId, channelId := se.channelId,
                 status := se.status, retryAfter := se.retryAfter, response := some kvs }
    | .malformed => .error { errMsg := some "Unexpected error processing APNs response" }
    | .empty =>
      .error { uniqueId := se.uniqueId, requestId := se.requestId, channelId := se.channelId,
               errMsg := some ("stream ended unexpectedly with status "
                 ++ se.status.getD "null" ++ " and empty body") }

/-- One `Client.prototype.request` invocation as a function of which
terminal event settles its promise.  The timeout/aborted/error/frameError
handlers reject with a bare `{error}` object (no echo headers, no status,
no retryAfter). -/
def requestModel (behavior : RequestBehavior) : Except Outcome Outcome :=
  match behavior with
  | .ended se => processEnd se
  | .timedOut => .error { errMsg := some "apn write timeout" }
  | .aborted => .error { errMsg := some "apn write aborted" }
  | .errored msg => .error { errMsg := some ("apn write failed: " ++ msg) }
  | .frameErrored msg => .error { errMsg := some msg }

/-- The guard `if (notification.body !== '{}') request.write(notification.body)`
in `Client.prototype.request`: whether the body is written to the stream. -/
def writesBody (body : String) : Bool :=
  body != "{}"

/-! ### The client layer (`Client.prototype.write` / `retryRequest`) -/

/-- Which of the two HTTP/2 sessions a request is issued on. -/
inductive SessionKind where
  | push
  | manage
  deriving Repr, DecidableEq

/-- The client configuration and session state visible to one `write`
call.  `pushConnectFailure`/`manageConnectFailure` are `some msg` when the
respective session needs (re)connecting and the connect attempt rejects
with message `msg`; `none` means the session is available (already open,
or the connect succeeds).  `pushSessionClosed`/`manageSessionClosed` model
`session.closed` as observed by `retryRequest`. -/
structure ClientState where
  isDestroyed : Bool := false
  address : String := "api.push.apple.com"
  manageChannelsAddress : String := "api-manage-broadcast.push.apple.com"
  connectionRetryLimit : Nat := 3
  pushConnectFailure : Option String := none
  manageConnectFailure : Option String := none
  pushSessionClosed : Bool := false
  manageSessionClosed : Bool := false
  deriving Repr, DecidableEq

/-- `connectionRetryLimit: 3` default in `config.js`. -/
def defaultConnectionRetryLimit : Nat := 3

/-- The authority used for a session: `config.address` for the push
session, `config.manageChannelsAddress` for the management session. -/
def ClientState.addressFor (st : ClientState) : SessionKind → String
  | .push => st.address
  | .manage => st.manageChannelsAddress

/-- Connect-failure message for a session kind, if connecting fails. -/
def ClientState.connectFailure (st : ClientState) : SessionKind → Option String
  | .push => st.pushConnectFailure
  | .manage => st.manageConnectFailure

/-- `session.closed` for the session of the given kind. -/
def ClientState.sessionClosed (st : ClientState) : SessionKind → Bool
  | .push => st.pushSessionClosed
  | .manage => st.manageSessionClosed

/-- `Client.prototype.makePath`: the path template per `type` tag. -/
def makePath (type subDirectory : String) : Option String :=
  if type == "channels" then some ("/1/apps/" ++ subDirectory ++ "/channels")
  else if type == "allChannels" then some ("/1/apps/" ++ subDirectory ++ "/all-channels")
  else if type == "device" then some ("/3/device/" ++ subDirectory)
  else if type == "broadcasts" then some ("/4/broadcasts/apps/" ++ subDirectory)
  else none

/-- `Client.prototype.subDirectoryLabel`: the outcome label key per
`type` tag. -/
def subDirectoryLabel (type : String) : Option String :=
  if type == "device" then some "device"
  else if type == "channels" || type == "allChannels" || type == "broadcasts" then some "bundleId"
  else none

/-- `HTTPMethod[method]` lookup: only `post`, `get`, `delete` exist. -/
def httpMethod (method : String) : Option String :=
  if method == "post" then some "POST"
  else if method == "get" then some "GET"
  else if method == "delete" then some "DELETE"
  else none

/-- `this.subDirectoryLabel(type) ?? type`. -/
def writeLabel (type : String) : String :=
  (subDirectoryLabel type).getD type

/-- The session-selection branch `if (path.includes('/1/apps/'))` of
`Client.prototype.write`. -/
def sessionFor (path : String) : SessionKind :=
  if jsIncludes path "/1/apps/" then .manage else .push

/-- `const retryStatusCodes = [408, 429, 500, 502, 503, 504];` (statuses
as decimal strings, see the modelling conventions). -/
def retryStatusCodes : List String := ["408", "429", "500", "502", "503", "504"]

/-- The retry guard of `Client.prototype.write`:
`retryStatusCodes.includes(error.status) || (typeof error.error !==
'undefined' && error.status == 403 && error.error.message ===
'ExpiredProviderToken')`. -/
def isRetryableFailure (e : Outcome) : Bool :=
  (match e.status with
   | some s => retryStatusCodes.contains s
   | none => false)
  || (e.errMsg.isSome && e.status == some "403" && e.errMsg == some "ExpiredProviderToken")

/-- `delete error.retryAfter;  // Never propagate retryAfter outside of client.` -/
def stripRetryAfter (e : Outcome) : Outcome :=
  { e with retryAfter := none }

/-- The spread `{ ...subDirectoryInformation, ...x }`: the label key is
added unless `x` already carries one (request-layer values never do;
body-supplied keys other than the tracked set are kept in `bodyFields`
and do not shadow the label). -/
def withLabel (label sub : String) (o : Outcome) : Outcome :=
  { o with labelName := some (o.labelName.getD label),
           labelValue := some (o.labelValue.getD sub) }

/-- Thrown when `makePath` returns `null`. -/
def pathFailure (type sub : String) : Outcome :=
  { labelName := some (writeLabel type), labelValue := some sub,
    errMsg := some ("could not make a path for " ++ type ++ " and " ++ sub) }

/-- Thrown when `HTTPMethod[method]` is `null`. -/
def methodFailure (type sub method : String) : Outcome :=
  { labelName := some (writeLabel type), labelValue := some sub,
    errMsg := some ("invalid httpMethod \"" ++ method ++ "\"") }

/-- Thrown when `this.isDestroyed` is set. -/
def destroyedFailure (type sub : String) : Outcome :=
  { labelName := some (writeLabel type), labelValue := some sub,
    errMsg := some "client is destroyed" }

/-- Thrown when the connect attempt for the selected session rejects:
`{ ...subDirectoryInformation, error }`. -/
def connectFailureOutcome (type sub msg : String) : Outcome :=
  { labelName := some (writeLabel type), labelValue := some sub,
    errMsg := some msg }

/-- The settled result of one `Client.prototype.request` call, as a
function of session kind, authority and attempt index (`0` is the initial
attempt made by `write`; retries pass `retryCount`). -/
def RequestFn : Type :=
  SessionKind → String → Nat → Except Outcome Outcome

/-- `Client.prototype.retryRequest`: recurses on the attempt count,
re-issuing the request until it succeeds, the incremented count exceeds
`connectionRetryLimit`, or the session is no longer usable.  The
`Retry-After` sleep only delays the next attempt and is not part of the
settled value. -/
def retryRequest (st : ClientState) (kind : SessionKind) (req : RequestFn)
    (addr : String) (e : Outcome) (count : Nat) : Except Outcome Outcome :=
  if st.isDestroyed || st.sessionClosed kind then
    .error { errMsg := some "client session is either closed or destroyed" }
  else if count + 1 > st.connectionRetryLimit then
    .error e
  else
    match req kind addr (count + 1) with
    | .ok s => .ok s
    | .error e2 => retryRequest st kind req addr e2 (count + 1)
  termination_by st.connectionRetryLimit - count
  decreasing_by simp_wf; omega

/-- `Client.prototype.write`: path and method resolution, the destroyed
guard, session selection and lazy connect, the initial request, the retry
guard, and the label/`retryAfter` post-processing of the settled value.
The `closeAndDestroySession` side effect of a final 500 and the logging
calls do not affect the settled value and are not modelled.  (The push
branch deletes `retryAfter` from a connect error before nesting it; the
nested object carries no top-level `retryAfter` either way.) -/
def clientWrite (st : ClientState) (req : RequestFn) (built : BuiltNotification)
    (subDirectory type method : String) (count : Option Nat) : Except Outcome Outcome :=
  match makePath type subDirectory with
  | none => .error (pathFailure type subDirectory)
  | some path =>
    match httpMethod method with
    | none => .error (methodFailure type subDirectory method)
    | some _ =>
      if st.isDestroyed then .error (destroyedFailure type subDirectory)
      else
        match st.connectFailure (sessionFor path) with
        | some msg => .error (connectFailureOutcome type subDirectory msg)
        | none =>
          match req (sessionFor path) (st.addressFor (sessionFor path)) 0 with
          | .ok s => .ok (withLabel (writeLabel type) subDirectory s)
          | .error e =>
            if isRetryableFailure e then
              match retryRequest st (sessionFor path) req (st.addressFor (sessionFor path))
                  e (count.getD 0) with
              | .ok s => .ok (withLabel (writeLabel type) subDirectory s)
              | .error e2 => .error (withLabel (writeLabel type) subDirectory (stripRetryAfter e2))
            else
              .error (withLabel (writeLabel type) subDirectory (stripRetryAfter e))

/-! ### The dispatcher layer (`provider.js`) -/

/-- The two-list result `{sent, failed}` of a batch operation. -/
structure BatchResult where
  sent : List Outcome := []
  failed : List Outcome := []
  deriving Repr, DecidableEq

/-- `this.client.write(builtNotification, subDirectory, type, method)` as
seen by the dispatcher: built notification, recipient, type tag, method. -/
def WriteFn : Type :=
  BuiltNotification → String → String → String → Except Outcome Outcome

/-- One iteration of the `sentNotifications.forEach` aggregation loop
shared by `send`, `manageChannels` and `broadcast`: a fulfilled value with
a truthy `status` or `error` is pushed onto `failed`, any other fulfilled
value onto `sent`, and a rejection's reason onto `failed`. -/
def settleStep (acc : BatchResult) (r : Except Outcome Outcome) : BatchResult :=
  match r with
  | .ok v =>
    if hasStatusOrError v then { acc with failed := acc.failed ++ [v] }
    else { acc with sent := acc.sent ++ [v] }
  | .error e => { acc with failed := acc.failed ++ [e] }

/-- The whole aggregation loop over the `Promise.allSettled` results. -/
def aggregate (results : List (Except Outcome Outcome)) : BatchResult :=
  results.foldl settleStep {}

/-- Classifier for membership in `sent`: a fulfilled value carrying
neither a (truthy) `status` nor `error` field. -/
def sentOf : Except Outcome Outcome → Option Outcome
  | .ok v => if hasStatusOrError v then none else some v
  | .error _ => none

/-- Classifier for membership in `failed`: a fulfilled value carrying a
`status` or `error` field, or the reason of a rejection. -/
def failedOf : Except Outcome Outcome → Option Outcome
  | .ok v => if hasStatusOrError v then some v else none
  | .error e => some e

/-- The partition of a settled batch described by the two classifiers. -/
def partitioned (results : List (Except Outcome Outcome)) : BatchResult :=
  { sent := results.filterMap sentOf, failed := results.filterMap failedOf }

/-- The per-recipient settled results of `Provider.prototype.send`: one
`client.write(built, token, 'device', 'post')` per normalized recipient. -/
def sendResults (wf : WriteFn) (built : BuiltNotification)
    (recipients : JsArg String) : List (Except Outcome Outcome) :=
  recipients.normalize.map (fun token => wf built token "device" "post")

/-- `Provider.prototype.send`: fan out, settle all, aggregate.  The batch
call itself always resolves. -/
def sendBatch (wf : WriteFn) (built : BuiltNotification)
    (recipients : JsArg String) : Except Outcome BatchResult :=
  .ok (aggregate (sendResults wf built recipients))

/-- The `switch (action)` of `Provider.prototype.manageChannels`, mapping
an action to its `(type, method)` pair; `none` for the `default` branch. -/
def actionTypeMethod (action : String) : Option (String × String) :=
  if action == "create" then some ("channels", "post")
  else if action == "read" then some ("channels", "get")
  else if action == "readAll" then some ("allChannels", "get")
  else if action == "delete" then some ("channels", "delete")
  else none

/-- The `default` branch's thrown value
`{ bundleId, error: new VError('the action "<a>" is not supported') }`. -/
def unsupportedActionFailure (bundleId action : String) : Outcome :=
  { labelName := some "bundleId", labelValue := some bundleId,
    errMsg := some ("the action \"" ++ action ++ "\" is not supported") }

/-- The per-notification settled results of `manageChannels`: every
request carries the same `bundleId` as its subdirectory. -/
def manageChannelsResults (wf : WriteFn) (builtList : List BuiltNotification)
    (bundleId type method : String) : List (Except Outcome Outcome) :=
  builtList.map (fun built => wf built bundleId type method)

/-- `Provider.prototype.manageChannels`: the unsupported-action branch
throws before any notification is built or any request issued; supported
actions fan out and aggregate. -/
def manageChannelsBatch (wf : WriteFn) (builtArg : JsArg BuiltNotification)
    (bundleId action : String) : Except Outcome BatchResult :=
  match actionTypeMethod action with
  | none => .error (unsupportedActionFailure bundleId action)
  | some tm =>
    .ok (aggregate (manageChannelsResults wf builtArg.normalize bundleId tm.1 tm.2))

/-- The per-notification settled results of `broadcast`. -/
def broadcastResults (wf : WriteFn) (builtList : List BuiltNotification)
    (bundleId : String) : List (Except Outcome Outcome) :=
  builtList.map (fun built => wf built bundleId "broadcasts" "post")

/-- `Provider.prototype.broadcast`: fan out with `type='broadcasts'`,
`method='post'`; always resolves. -/
def broadcastBatch (wf : WriteFn) (builtArg : JsArg BuiltNotification)
    (bundleId : String) : Except Outcome BatchResult :=
  .ok (aggregate (broadcastResults wf builtArg.normalize bundleId))

/-- The dispatcher's view of a concrete client:
`this.client.write(built, sub, type, method)` with no `count` argument. -/
def writeVia (st : ClientState) (req : RequestFn) : WriteFn :=
  fun built sub type method => clientWrite st req built sub type method none

/-! ### Concrete oracles and stream states used by witnesses and
counterexamples -/

/-- The concrete stream end used by the C7 witness. -/
def seC7w : StreamEnd :=
  { status := some "200", data := .obj [("x", "y")] }

/-- A request oracle that fails with a message recording which session
and authority it was issued on; used to observe session selection. -/
def reqMark : RequestFn := fun kind addr _ =>
  .error { errMsg := some ((match kind with
    | .manage => "manage:"
    | .push => "push:") ++ addr) }

/-- A request oracle that always rejects with a plain transport-style
failure (no status, not retryable). -/
def reqBoom : RequestFn := fun _ _ _ => .error { errMsg := some "boom" }

/-- The failure produced by `reqBoom`. -/
def eBoom : Outcome := { errMsg := some "boom" }

/-- The stream end used by the C2 counterexample: a 200 response whose
JSON body supplies both a truthy `status` key and a `retryAfter` key. -/
def seLeak : StreamEnd :=
  { status := some "200", data := .obj [("status", "1"), ("retryAfter", "9")] }

/-- The request oracle for the C2 counterexample. -/
def reqLeak : RequestFn := fun _ _ _ => requestModel (.ended seLeak)

/-- The stream end used by the C1 counterexample: a 200 response whose
JSON body supplies a falsy `status` key (the empty string). -/
def seFalsy : StreamEnd :=
  { status := some "200", data := .obj [("status", "")] }

/-- The request oracle for the C1 counterexample. -/
def reqFalsy : RequestFn := fun _ _ _ => requestModel (.ended seFalsy)

/-! ### Helper lemmas -/

theorem filterMap_const_some {α β : Type} (f : α → β) (l : List α) :
    l.filterMap (fun a => some (f a)) = l.map f := by
  induction l with
  | nil => rfl
  | cons a l ih => simp [ih]

theorem foldl_settleStep (rs : List (Except Outcome Outcome)) :
    ∀ acc : BatchResult,
      rs.foldl settleStep acc =
        { sent := acc.sent ++ rs.filterMap sentOf,
          failed := acc.failed ++ rs.filterMap failedOf } := by
  induction rs with
  | nil => intro acc; simp
  | cons r rs ih =>
    intro acc
    cases r with
    | ok v =>
      by_cases h : hasStatusOrError v
      · simp [settleStep, sentOf, failedOf, h, ih]
      · simp [settleStep, sentOf, failedOf, h, ih]
    | error e =>
      simp [settleStep, sentOf, failedOf, ih]

theorem length_partition (rs : List (Except Outcome Outcome)) :
    (rs.filterMap sentOf).length + (rs.filterMap failedOf).length = rs.length := by
  induction rs with
  | nil => rfl
  | cons r rs ih =>
    cases r with
    | ok v =>
      by_cases h : hasStatusOrError v
      · simp [sentOf, failedOf, h]; omega
      · simp [sentOf, failedOf, h]; omega
    | error e => simp [sentOf, failedOf]; omega

theorem aggregate_eq (rs : List (Except Outcome Outcome)) :
    aggregate rs = partitioned rs := by
  simpa [aggregate, partitioned] using foldl_settleStep rs {}

theorem isPrefixOf_append_self (l r : List Char) : l.isPrefixOf (l ++ r) = true := by
  induction l with
  | nil => simp [List.isPrefixOf]
  | cons a as ih => simp [List.isPrefixOf, ih]

theorem charsIncl_of_isPrefixOf {hay needle : List Char}
    (h : needle.isPrefixOf hay = true) : charsIncl hay needle = true := by
  cases hay with
  | nil =>
    cases needle with
    | nil => rfl
    | cons a as => simp [List.isPrefixOf] at h
  | cons c rest => simp [charsIncl, h]

theorem string_data_append (s t : String) : (s ++ t).data = s.data ++ t.data := by
  cases s; cases t; rfl

theorem jsIncludes_append_left (pre mid post : String) :
    jsIncludes (pre ++ mid ++ post) pre = true := by
  unfold jsIncludes
  rw [string_data_append, string_data_append, List.append_assoc]
  exact charsIncl_of_isPrefixOf (isPrefixOf_append_self _ _)

theorem retryRequest_congr (st : ClientState) (kind : SessionKind) (req req2 : RequestFn)
    (addr : String) :
    ∀ (n : Nat) (e : Outcome) (count : Nat), st.connectionRetryLimit - count ≤ n →
      (∀ i, count < i → i ≤ st.connectionRetryLimit → req kind addr i = req2 kind addr i) →
      retryRequest st kind req addr e count = retryRequest st kind req2 addr e count := by
  intro n
  induction n with
  | zero =>
    intro e count hle hag
    have hgt : count + 1 > st.connectionRetryLimit := by omega
    rw [retryRequest, retryRequest]
    by_cases hcl : (st.isDestroyed || st.sessionClosed kind) = true
    · simp [hcl]
    · simp [hcl, hgt]
  | succ n ih =>
    intro e count hle hag
    rw [retryRequest, retryRequest]
    by_cases hcl : (st.isDestroyed || st.sessionClosed kind) = true
    · simp [hcl]
    · by_cases hgt : count + 1 > st.connectionRetryLimit
      · simp [hcl, hgt]
      · have hr : req kind addr (count + 1) = req2 kind addr (count + 1) :=
          hag (count + 1) (by omega) (by omega)
        simp only [hcl, hgt, if_false, Bool.false_eq_true, if_neg, hr]
        cases h2 : req2 kind addr (count + 1) with
        | ok s => simp [h2]
        | error e2 =>
          simp only [h2]
          exact ih e2 (count + 1) (by omega) (fun i h1 h2 => hag i (by omega) h2)

/-! ### Claims -/

/-- C9: for every notification and recipient string `r`,
`Send(notification, r)` returns the same BatchResult as
`Send(notification, [r])`: the non-array argument is normalized to a
one-element list before fan-out and the calls are otherwise identical. -/
theorem send_single_vs_list (wf : WriteFn) (built : BuiltNotification) (r : String) :
    sendBatch wf built (.single r) = sendBatch wf built (.array [r]) := rfl

/-- C6 counterexample: the claim requires that an empty body is not
written to the stream, but the guard in `Client.prototype.request` only
compares against the literal `{}`, so the empty body is written. -/
theorem writesBody_empty_counterexample : writesBody "" = true := rfl

/-- C6 (amended): the body is written to the HTTP/2 stream iff it is not
the literal `{}`; in particular the literal `{}` produces no write (and
hence no DATA frame). -/
theorem writesBody_condition (b : String) :
    (writesBody b = true ↔ b ≠ "{}") ∧ writesBody "{}" = false := by
  constructor
  · simp [writesBody]
  · rfl

/-- C1 counterexample: a 200 response whose JSON body supplies a falsy
`status` value (`{"status":""}`) yields a fulfilled value that carries a
`status` field yet is appended to `sent` — the forEach test
`value.status || value.error` is a truthiness test, not a presence test —
contrary to the claim that an outcome is appended to `sent` iff it
carries neither a `status` nor an `error` field. -/
theorem falsy_status_sent_counterexample :
    sendBatch (writeVia { } reqFalsy) { } (.single "tok")
      = .ok { sent := [{ labelName := some "device", labelValue := some "tok",
                         status := some "", bodyFields := some [("status", "")] }],
              failed := [] }
  ∧ ({ labelName := some "device", labelValue := some "tok",
       status := some "", bodyFields := some [("status", "")] } : Outcome).status.isSome
      = true := by
  constructor
  · show Except.ok (aggregate (sendResults (writeVia { } reqFalsy) { } (.single "tok"))) = _
    congr 1
  · rfl

/-- C1 (amended): for every batch accepted by Send, ManageChannels
(supported action) or Broadcast, the returned BatchResult satisfies
`|sent| + |failed| = N`, each of the N settled per-recipient results
lands in exactly one of the two lists, and a result is in `sent` iff it
is a fulfilled value carrying neither a truthy `status` nor a truthy
`error` field (`sentOf`) — a falsy-but-present body-supplied value
counts as absent — otherwise, rejections included, in `failed`
(`failedOf`). -/
theorem batch_partition_complete (wf : WriteFn) (built : BuiltNotification)
    (recipients : JsArg String) (builtArg : JsArg BuiltNotification)
    (bundleId action : String) :
    (sendBatch wf built recipients = .ok (partitioned (sendResults wf built recipients))
      ∧ (partitioned (sendResults wf built recipients)).sent.length
          + (partitioned (sendResults wf built recipients)).failed.length
          = recipients.normalize.length)
  ∧ (broadcastBatch wf builtArg bundleId
        = .ok (partitioned (broadcastResults wf builtArg.normalize bundleId))
      ∧ (partitioned (broadcastResults wf builtArg.normalize bundleId)).sent.length
          + (partitioned (broadcastResults wf builtArg.normalize bundleId)).failed.length
          = builtArg.normalize.length)
  ∧ (manageChannelsBatch wf builtArg bundleId action
        = match actionTypeMethod action with
          | none => .error (unsupportedActionFailure bundleId action)
          | some tm =>
            .ok (partitioned (manageChannelsResults wf builtArg.normalize bundleId tm.1 tm.2)))
  ∧ (∀ type method,
      (partitioned (manageChannelsResults wf builtArg.normalize bundleId type method)).sent.length
        + (partitioned (manageChannelsResults wf builtArg.normalize bundleId type method)).failed.length
        = builtArg.normalize.length) := by
  refine ⟨⟨?_, ?_⟩, ⟨?_, ?_⟩, ?_, ?_⟩
  · simp [sendBatch, aggregate_eq]
  · simp only [partitioned]
    rw [length_partition]
    simp [sendResults]
  · simp [broadcastBatch, aggregate_eq]
  · simp only [partitioned]
    rw [length_partition]
    simp [broadcastResults]
  · cases h : actionTypeMethod action with
    | none => simp [manageChannelsBatch, h]
    | some tm => simp [manageChannelsBatch, h, aggregate_eq]
  · intro type method
    simp only [partitioned]
    rw [length_partition]
    simp [manageChannelsResults]

/-- C8: `manageChannels` with an action outside
`{create, read, readAll, delete}` rejects the whole call with the single
thrown Failure `{bundleId, error}` whose message is
`the action "<a>" is not supported`, independently of the notifications
and of the client (so before any building or I/O); and an unsupported
action is the only input for which any of the three batch operations
rejects instead of resolving to a BatchResult. -/
theorem manage_unknown_action_rejects (wf : WriteFn) (builtArg : JsArg BuiltNotification)
    (bundleId action : String) (built : BuiltNotification) (recipients : JsArg String)
    (h : actionTypeMethod action = none) :
    manageChannelsBatch wf builtArg bundleId action
      = .error (unsupportedActionFailure bundleId action)
  ∧ (unsupportedActionFailure bundleId action).labelName = some "bundleId"
  ∧ (unsupportedActionFailure bundleId action).labelValue = some bundleId
  ∧ (unsupportedActionFailure bundleId action).errMsg
      = some ("the action \"" ++ action ++ "\" is not supported")
  ∧ (actionTypeMethod action = none ↔
      action ≠ "create" ∧ action ≠ "read" ∧ action ≠ "readAll" ∧ action ≠ "delete")
  ∧ (sendBatch wf built recipients).isOk = true
  ∧ (broadcastBatch wf builtArg bundleId).isOk = true
  ∧ (∀ a2 tm, actionTypeMethod a2 = some tm →
      (manageChannelsBatch wf builtArg bundleId a2).isOk = true) := by
  refine ⟨by simp [manageChannelsBatch, h], rfl, rfl, rfl, ?_, rfl, rfl, ?_⟩
  · unfold actionTypeMethod
    split_ifs with h1 h2 h3 h4 <;>
      simp_all
  · intro a2 tm h2
    simp [manageChannelsBatch, h2, Except.isOk, Except.toBool]

/-- C8 witness at `action = "hello"`. -/
theorem manage_unknown_action_rejects_witness :
    manageChannelsBatch (fun _ _ _ _ => .error { }) (.array []) "abcd1234" "hello"
      = .error (unsupportedActionFailure "abcd1234" "hello")
  ∧ (unsupportedActionFailure "abcd1234" "hello").labelName = some "bundleId"
  ∧ (unsupportedActionFailure "abcd1234" "hello").labelValue = some "abcd1234"
  ∧ (unsupportedActionFailure "abcd1234" "hello").errMsg
      = some ("the action \"" ++ "hello" ++ "\" is not supported")
  ∧ (actionTypeMethod "hello" = none ↔
      "hello" ≠ "create" ∧ "hello" ≠ "read" ∧ "hello" ≠ "readAll" ∧ "hello" ≠ "delete")
  ∧ (sendBatch (fun _ _ _ _ => .error { }) { } (.single "r")).isOk = true
  ∧ (broadcastBatch (fun _ _ _ _ => .error { }) (.array []) "abcd1234").isOk = true
  ∧ (∀ a2 tm, actionTypeMethod a2 = some tm →
      (manageChannelsBatch (fun _ _ _ _ => .error { }) (.array []) "abcd1234" a2).isOk = true) :=
  manage_unknown_action_rejects (fun _ _ _ _ => .error { }) (.array []) "abcd1234" "hello"
    { } (.single "r") (by rfl)

/-- C7 counterexample: a stream that ends with status 200 and body
`{"status":"400"}` resolves to a fulfilled value that DOES carry a
`status` field (the body keys are spread over the echo headers), contrary
to the claim that the result carries no status and no error field. -/
theorem twoxx_body_status_counterexample :
    processEnd { status := some "200", data := .obj [("status", "400")] }
      = .ok { status := some "400", bodyFields := some [("status", "400")] } := rfl

/-- C7 (amended): when the stream ends with captured status 200, 201 or
204, the request resolves to the merge of the echoed headers with the
parsed body (the empty object when the body is empty), and the result
carries no `status` and no `error` field provided the parsed body itself
defines neither key. -/
theorem twoxx_success_resolution (se : StreamEnd) (kvs : List (String × String))
    (h2 : twoxx se.status = true) :
    (se.data = .obj kvs → lookupKey kvs "status" = none → lookupKey kvs "error" = none →
        processEnd se = .ok (endSuccess se.uniqueId se.requestId se.channelId kvs)
        ∧ (endSuccess se.uniqueId se.requestId se.channelId kvs).status = none
        ∧ (endSuccess se.uniqueId se.requestId se.channelId kvs).errMsg = none)
  ∧ (se.data = .empty →
        processEnd se = .ok (endSuccess se.uniqueId se.requestId se.channelId [])
        ∧ (endSuccess se.uniqueId se.requestId se.channelId []).status = none
        ∧ (endSuccess se.uniqueId se.requestId se.channelId []).errMsg = none) := by
  constructor
  · intro hd hs he
    refine ⟨?_, ?_, ?_⟩
    · simp [processEnd, h2, hd]
    · simp [endSuccess, hs]
    · simp [endSuccess, he]
  · intro hd
    refine ⟨?_, ?_, ?_⟩
    · simp [processEnd, h2, hd]
    · simp [endSuccess, lookupKey]
    · simp [endSuccess, lookupKey]

/-- C7 witness: a 200 response with body `{"x":"y"}`. -/
theorem twoxx_success_resolution_witness :
    twoxx seC7w.status = true
  ∧ (seC7w.data = .obj [("x", "y")] →
      lookupKey [("x", "y")] "status" = none → lookupKey [("x", "y")] "error" = none →
        processEnd seC7w = .ok (endSuccess seC7w.uniqueId seC7w.requestId seC7w.channelId [("x", "y")])
        ∧ (endSuccess seC7w.uniqueId seC7w.requestId seC7w.channelId [("x", "y")]).status = none
        ∧ (endSuccess seC7w.uniqueId seC7w.requestId seC7w.channelId [("x", "y")]).errMsg = none)
  ∧ (seC7w.data = .empty →
      processEnd seC7w = .ok (endSuccess seC7w.uniqueId seC7w.requestId seC7w.channelId [])
      ∧ (endSuccess seC7w.uniqueId seC7w.requestId seC7w.channelId []).status = none
      ∧ (endSuccess seC7w.uniqueId seC7w.requestId seC7w.channelId []).errMsg = none) :=
  ⟨rfl, (twoxx_success_resolution seC7w [("x", "y")] rfl).1,
    (twoxx_success_resolution seC7w [("x", "y")] rfl).2⟩

/-- C5 counterexample: the claim says every `device`-typed request is
issued on the push session with the push address for every subdirectory
string, but `write` selects the session with `path.includes('/1/apps/')`
(substring, not prefix): a device token containing `/1/apps/` is issued
on the management session with the manageChannels address. -/
theorem device_path_manage_session_counterexample :
    clientWrite { address := "push.host", manageChannelsAddress := "manage.host" } reqMark
        { } "/1/apps/x" "device" "post" none
      = .error { labelName := some "device", labelValue := some "/1/apps/x",
                 errMsg := some "manage:manage.host" } := rfl

/-- C5 (amended): a request is issued on the management session with the
manageChannels address iff its resolved path contains `/1/apps/` as a
substring, and on the push session with the push address otherwise.
Paths of types `channels`/`allChannels` always contain it; paths of
types `device`/`broadcasts` use the push session exactly when the
resolved path does not contain `/1/apps/`. -/
theorem session_selection (type sub path : String) (st : ClientState)
    (h : makePath type sub = some path) :
    (sessionFor path = .manage ↔ jsIncludes path "/1/apps/" = true)
  ∧ ((type = "channels" ∨ type = "allChannels") → sessionFor path = .manage)
  ∧ ((type = "device" ∨ type = "broadcasts") → jsIncludes path "/1/apps/" = false →
      sessionFor path = .push)
  ∧ st.addressFor (sessionFor path)
      = (if jsIncludes path "/1/apps/" then st.manageChannelsAddress else st.address) := by
  refine ⟨?_, ?_, ?_, ?_⟩
  · unfold sessionFor
    by_cases hi : jsIncludes path "/1/apps/" = true
    · simp [hi]
    · simp [hi]
  · intro ht
    have hp : jsIncludes path "/1/apps/" = true := by
      cases ht with
      | inl hc =>
        rw [hc] at h
        simp only [makePath] at h
        simp at h
        rw [← h]
        exact jsIncludes_append_left "/1/apps/" sub "/channels"
      | inr hc =>
        rw [hc] at h
        simp only [makePath] at h
        simp at h
        rw [← h]
        exact jsIncludes_append_left "/1/apps/" sub "/all-channels"
    simp [sessionFor, hp]
  · intro _ hni
    simp [sessionFor, hni]
  · unfold sessionFor
    by_cases hi : jsIncludes path "/1/apps/" = true
    · simp [hi, ClientState.addressFor]
    · simp [hi, ClientState.addressFor]

/-- C5 witness at `type = "channels"`, `sub = "b"`. -/
theorem session_selection_witness :
    makePath "channels" "b" = some "/1/apps/b/channels"
  ∧ ((sessionFor "/1/apps/b/channels" = .manage
        ↔ jsIncludes "/1/apps/b/channels" "/1/apps/" = true)
    ∧ (("channels" = "channels" ∨ "channels" = "allChannels") →
        sessionFor "/1/apps/b/channels" = .manage)
    ∧ (("channels" = "device" ∨ "channels" = "broadcasts") →
        jsIncludes "/1/apps/b/channels" "/1/apps/" = false →
        sessionFor "/1/apps/b/channels" = .push)
    ∧ ClientState.addressFor { } (sessionFor "/1/apps/b/channels")
        = (if jsIncludes "/1/apps/b/channels" "/1/apps/"
            then ClientState.manageChannelsAddress { }
            else ClientState.address { })) :=
  ⟨rfl, session_selection "channels" "b" "/1/apps/b/channels" { } rfl⟩

/-- C3: a Failure coming back from the initial request is retried iff its
status is one of 408, 429, 500, 502, 503, 504, or its status is 403 with
error message `ExpiredProviderToken`; every other Failure is surfaced
immediately (label added, `retryAfter` stripped) without entering the
retry path. -/
theorem write_retry_guard (st : ClientState) (req : RequestFn) (built : BuiltNotification)
    (sub type method path mS : String) (count : Option Nat) (e : Outcome)
    (hpath : makePath type sub = some path)
    (hm : httpMethod method = some mS)
    (hd : st.isDestroyed = false)
    (hc : st.connectFailure (sessionFor path) = none)
    (hreq : req (sessionFor path) (st.addressFor (sessionFor path)) 0 = .error e) :
    (isRetryableFailure e = true ↔
      (e.status = some "408" ∨ e.status = some "429" ∨ e.status = some "500"
        ∨ e.status = some "502" ∨ e.status = some "503" ∨ e.status = some "504"
        ∨ (e.status = some "403" ∧ e.errMsg = some "ExpiredProviderToken")))
  ∧ (isRetryableFailure e = false →
      clientWrite st req built sub type method count
        = .error (withLabel (writeLabel type) sub (stripRetryAfter e)))
  ∧ (isRetryableFailure e = true →
      clientWrite st req built sub type method count
        = (match retryRequest st (sessionFor path) req (st.addressFor (sessionFor path))
              e (count.getD 0) with
           | .ok s => .ok (withLabel (writeLabel type) sub s)
           | .error e2 => .error (withLabel (writeLabel type) sub (stripRetryAfter e2)))) := by
  refine ⟨?_, ?_, ?_⟩
  · unfold isRetryableFailure retryStatusCodes
    cases hs : e.status with
    | none => simp [hs]
    | some s =>
      cases hm2 : e.errMsg with
      | none => simp [hs, hm2]
      | some m =>
        simp [hs, hm2]
        tauto
  · intro hr
    simp [clientWrite, hpath, hm, hd, hc, hreq, hr]
  · intro hr
    simp [clientWrite, hpath, hm, hd, hc, hreq, hr]

/-- C3 witness: a non-retryable transport failure on a `device` write. -/
theorem write_retry_guard_witness :
    makePath "device" "t" = some "/3/device/t"
  ∧ httpMethod "post" = some "POST"
  ∧ ((isRetryableFailure eBoom = true ↔
        (eBoom.status = some "408" ∨ eBoom.status = some "429" ∨ eBoom.status = some "500"
          ∨ eBoom.status = some "502" ∨ eBoom.status = some "503" ∨ eBoom.status = some "504"
          ∨ (eBoom.status = some "403" ∧ eBoom.errMsg = some "ExpiredProviderToken")))
    ∧ (isRetryableFailure eBoom = false →
        clientWrite { } reqBoom { } "t" "device" "post" none
          = .error (withLabel (writeLabel "device") "t" (stripRetryAfter eBoom)))
    ∧ (isRetryableFailure eBoom = true →
        clientWrite { } reqBoom { } "t" "device" "post" none
          = (match retryRequest { } (sessionFor "/3/device/t") reqBoom
                (ClientState.addressFor { } (sessionFor "/3/device/t")) eBoom
                ((none : Option Nat).getD 0) with
             | .ok s => .ok (withLabel (writeLabel "device") "t" s)
             | .error e2 => .error (withLabel (writeLabel "device") "t" (stripRetryAfter e2))))) :=
  ⟨rfl, rfl, write_retry_guard { } reqBoom { } "t" "device" "post" "/3/device/t" "POST"
    none eBoom rfl rfl rfl rfl rfl⟩

/-- C4 counterexample: with the push session closed, `retryRequest` at an
exhausted attempt count surfaces the fresh closed-session failure, not
the last observed Failure unchanged as the claim states. -/
theorem retryRequest_closed_counterexample :
    retryRequest { pushSessionClosed := true } .push (fun _ _ _ => .error { }) "a"
        { status := some "500" } 3
      = .error { errMsg := some "client session is either closed or destroyed" }
    ∧ retryRequest { pushSessionClosed := true } .push (fun _ _ _ => .error { }) "a"
        { status := some "500" } 3
      ≠ .error { status := some "500" } := by
  have h : retryRequest { pushSessionClosed := true } .push (fun _ _ _ => .error { }) "a"
      { status := some "500" } 3
      = .error { errMsg := some "client session is either closed or destroyed" } := by
    rw [retryRequest]
    simp [ClientState.sessionClosed]
  refine ⟨h, ?_⟩
  rw [h, ne_eq, Except.error.injEq]
  decide

/-- C4 (amended): the recursion of `retryRequest` is total (it is a Lean
function), and, when the client is not destroyed and the session not
closed, an attempt count whose increment exceeds `connectionRetryLimit`
surfaces the last observed Failure unchanged; moreover the result never
consults the request oracle at attempt indices outside
`(count, connectionRetryLimit]`, so at most
`connectionRetryLimit - count` retries are issued.  The configured
default of `connectionRetryLimit` is 3. -/
theorem retryRequest_bounded (st : ClientState) (kind : SessionKind) (req req2 : RequestFn)
    (addr : String) (e : Outcome) (count : Nat) :
    (st.isDestroyed = false → st.sessionClosed kind = false →
        count + 1 > st.connectionRetryLimit →
        retryRequest st kind req addr e count = .error e)
  ∧ ((∀ i, count < i → i ≤ st.connectionRetryLimit → req kind addr i = req2 kind addr i) →
        retryRequest st kind req addr e count = retryRequest st kind req2 addr e count)
  ∧ defaultConnectionRetryLimit = 3 := by
  refine ⟨?_, ?_, rfl⟩
  · intro h1 h2 h3
    rw [retryRequest]
    simp [h1, h2, h3]
  · intro hag
    exact retryRequest_congr st kind req req2 addr (st.connectionRetryLimit - count) e count
      (Nat.le_refl _) hag

/-- C4 witness: limit 3, count 3, live session. -/
theorem retryRequest_bounded_witness :
    (ClientState.isDestroyed { } = false ∧ ClientState.sessionClosed { } .push = false
      ∧ 3 + 1 > ClientState.connectionRetryLimit { })
  ∧ retryRequest { } .push reqBoom "a" eBoom 3 = .error eBoom
  ∧ retryRequest { } .push reqBoom "a" eBoom 3 = retryRequest { } .push reqBoom "a" eBoom 3
  ∧ defaultConnectionRetryLimit = 3 :=
  ⟨⟨rfl, rfl, by norm_num⟩,
    (retryRequest_bounded { } .push reqBoom reqBoom "a" eBoom 3).1 rfl rfl (by norm_num),
    (retryRequest_bounded { } .push reqBoom reqBoom "a" eBoom 3).2.1
      (fun _ _ _ => rfl),
    (retryRequest_bounded { } .push reqBoom reqBoom "a" eBoom 3).2.2⟩

/-- C2 counterexample: a fulfilled 200 value whose body supplies a truthy
`status` and a `retryAfter` key is reclassified by the dispatcher into
`failed` without passing through the `delete error.retryAfter` applied to
rejections, so the `failed` list contains an element with a `retryAfter`
field, contrary to the claim. -/
theorem retryAfter_leak_counterexample :
    sendBatch (writeVia { } reqLeak) { } (.single "tok")
      = .ok { sent := [],
              failed := [{ labelName := some "device", labelValue := some "tok",
                           status := some "1", retryAfter := some "9",
                           bodyFields := some [("status", "1"), ("retryAfter", "9")] }] } := by
  show Except.ok (aggregate (sendResults (writeVia { } reqLeak) { } (.single "tok"))) = _
  congr 1
/-- C2 (amended): every Failure surfaced by `Client.prototype.write` —
that is, every rejection, retried or not — has had `retryAfter` deleted
before reaching the dispatcher; only fulfilled Success values that the
dispatcher reclassifies into `failed` can still carry a body-supplied
`retryAfter`. -/
theorem write_failure_strips_retryAfter (st : ClientState) (req : RequestFn)
    (built : BuiltNotification) (sub type method : String) (count : Option Nat)
    (e : Outcome) (h : clientWrite st req built sub type method count = .error e) :
    e.retryAfter = none := by
  unfold clientWrite at h
  split at h
  · injection h with h2
    subst h2
    rfl
  · split at h
    · injection h with h2
      subst h2
      rfl
    · split at h
      · injection h with h2
        subst h2
        rfl
      · split at h
        · injection h with h2
          subst h2
          rfl
        · split at h
          · exact absurd h (by simp)
          · split at h
            · split at h
              · exact absurd h (by simp)
              · injection h with h2
                subst h2
                rfl
            · injection h with h2
              subst h2
              rfl

/-- C2 witness: a destroyed client rejects and the surfaced failure has
no `retryAfter`. -/
theorem write_failure_strips_retryAfter_witness :
    clientWrite { isDestroyed := true } reqBoom { } "tok" "device" "post" none
      = .error (destroyedFailure "device" "tok")
  ∧ (destroyedFailure "device" "tok").retryAfter = none :=
  ⟨rfl, write_failure_strips_retryAfter { isDestroyed := true } reqBoom { } "tok" "device"
    "post" none (destroyedFailure "device" "tok") rfl⟩

theorem filterMap_const_none {α β : Type} (l : List α) :
    l.filterMap (fun _ => (none : Option β)) = [] := by
  induction l <;> simp [*]

/-- C10 counterexample: after shutdown, a `write` whose `type` has no
path template throws the path Failure, not the claimed
`client is destroyed` Failure (the path and method checks precede the
destroyed check). -/
theorem destroyed_write_path_error_counterexample :
    clientWrite { isDestroyed := true } reqBoom { } "x" "bogus" "post" none
      = .error (pathFailure "bogus" "x")
  ∧ (pathFailure "bogus" "x").errMsg = some "could not make a path for bogus and x"
  ∧ (pathFailure "bogus" "x").errMsg ≠ some "client is destroyed" := by
  refine ⟨rfl, rfl, ?_⟩
  decide

/-- C10 (amended): once `isDestroyed` is set, every `Client.write` with a
supported type and method throws `{label: recipient, error: 'client is
destroyed'}` — independently of the request oracle, so before opening any
session or performing I/O — and every Send, Broadcast or (supported
action) ManageChannels issued after shutdown still resolves, with every
recipient placed in `failed` carrying that Failure. -/
theorem write_after_shutdown (st : ClientState) (req : RequestFn) (built : BuiltNotification)
    (sub type method : String) (count : Option Nat)
    (recipients : JsArg String) (builtArg : JsArg BuiltNotification) (bundleId action : String)
    (hd : st.isDestroyed = true) :
    ((makePath type sub).isSome = true → (httpMethod method).isSome = true →
        clientWrite st req built sub type method count = .error (destroyedFailure type sub))
  ∧ sendBatch (writeVia st req) built recipients
      = .ok { sent := [],
              failed := recipients.normalize.map (fun tok => destroyedFailure "device" tok) }
  ∧ broadcastBatch (writeVia st req) builtArg bundleId
      = .ok { sent := [],
              failed := builtArg.normalize.map (fun _ => destroyedFailure "broadcasts" bundleId) }
  ∧ (∀ tm, actionTypeMethod action = some tm →
        manageChannelsBatch (writeVia st req) builtArg bundleId action
          = .ok { sent := [],
                  failed := builtArg.normalize.map (fun _ => destroyedFailure tm.1 bundleId) }) := by
  have hw : ∀ (b : BuiltNotification) (sub2 ty me p mm : String),
      makePath ty sub2 = some p → httpMethod me = some mm →
      clientWrite st req b sub2 ty me none = .error (destroyedFailure ty sub2) := by
    intro b sub2 ty me p mm hp hm2
    simp [clientWrite, hp, hm2, hd]
  refine ⟨?_, ?_, ?_, ?_⟩
  · intro h1 h2
    obtain ⟨p, hp⟩ := Option.isSome_iff_exists.mp h1
    obtain ⟨mm, hm2⟩ := Option.isSome_iff_exists.mp h2
    cases count with
    | none => exact hw built sub type method p mm hp hm2
    | some c =>
      simp [clientWrite, hp, hm2, hd]
  · have hp : ∀ tok : String,
        writeVia st req built tok "device" "post" = .error (destroyedFailure "device" tok) :=
      fun tok => hw built tok "device" "post" ("/3/device/" ++ tok) "POST" rfl rfl
    simp [sendBatch, sendResults, aggregate_eq, partitioned, hp, List.filterMap_map,
      Function.comp_def, sentOf, failedOf, filterMap_const_some, filterMap_const_none]
  · have hp : ∀ b : BuiltNotification,
        writeVia st req b bundleId "broadcasts" "post"
          = .error (destroyedFailure "broadcasts" bundleId) :=
      fun b => hw b bundleId "broadcasts" "post" ("/4/broadcasts/apps/" ++ bundleId) "POST" rfl rfl
    simp [broadcastBatch, broadcastResults, aggregate_eq, partitioned, hp, List.filterMap_map,
      Function.comp_def, sentOf, failedOf, filterMap_const_some, filterMap_const_none]
  · intro tm htm
    have hpm : (∃ p, makePath tm.1 bundleId = some p) ∧ (∃ mm, httpMethod tm.2 = some mm) := by
      unfold actionTypeMethod at htm
      split_ifs at htm with h1 h2 h3 h4 <;>
        (injection htm with htm2; rw [← htm2]; exact ⟨⟨_, rfl⟩, ⟨_, rfl⟩⟩)
    obtain ⟨⟨p, hp⟩, ⟨mm, hm2⟩⟩ := hpm
    have hpw : ∀ b : BuiltNotification,
        writeVia st req b bundleId tm.1 tm.2 = .error (destroyedFailure tm.1 bundleId) :=
      fun b => hw b bundleId tm.1 tm.2 p mm hp hm2
    simp [manageChannelsBatch, htm, manageChannelsResults, aggregate_eq, partitioned, hpw,
      List.filterMap_map, Function.comp_def, sentOf, failedOf, filterMap_const_some,
      filterMap_const_none]

/-- C10 witness: a destroyed default client, one recipient each. -/
theorem write_after_shutdown_witness :
    ((makePath "device" "tok").isSome = true → (httpMethod "post").isSome = true →
        clientWrite { isDestroyed := true } reqBoom { } "tok" "device" "post" none
          = .error (destroyedFailure "device" "tok"))
  ∧ sendBatch (writeVia { isDestroyed := true } reqBoom) { } (.single "tok")
      = .ok { sent := [],
              failed := (JsArg.single "tok").normalize.map
                (fun tok => destroyedFailure "device" tok) }
  ∧ broadcastBatch (writeVia { isDestroyed := true } reqBoom) (.array [{ }]) "b"
      = .ok { sent := [],
              failed := (JsArg.array [({ } : BuiltNotification)]).normalize.map
                (fun _ => destroyedFailure "broadcasts" "b") }
  ∧ (∀ tm, actionTypeMethod "create" = some tm →
        manageChannelsBatch (writeVia { isDestroyed := true } reqBoom) (.array [{ }]) "b" "create"
          = .ok { sent := [],
                  failed := (JsArg.array [({ } : BuiltNotification)]).normalize.map
                    (fun _ => destroyedFailure tm.1 "b") }) :=
  write_after_shutdown { isDestroyed := true } reqBoom { } "tok" "device" "post" none
    (.single "tok") (.array [{ }]) "b" "create" rfl
